import Mathlib

/-!
# Verification of the Proxmox VE Linux template generator

A shallow embedding of `gen_linux_template.py`.  The program is a sequential
orchestrator around external commands (`qm`, `pvesm`), a file download and the
local filesystem.  We model the outside world by oracles:

* `Env.cmdOk args` — whether the external command `args` exits with status 0
  (`run_command` raises `CalledProcessError` exactly when it is `false`);
* `Env.qmFound` — whether the `qm` binary exists (`FileNotFoundError` in
  `validate_environment` when `false`);
* `Env.transferOk url file` — whether `urllib.request.urlretrieve` succeeds;
* `Env.removeOk path` — whether `os.remove` succeeds;
* a filesystem `FS : String → Bool` giving `os.path.exists`.

Each embedded function returns its Python return value together with the list
of observable events it emits (external commands issued, transfers, file
removals, and the log lines that the specification's claims mention) and the
filesystem after the run.  Progress/info logging with no bearing on the claims
is elided; path canonicalisation (`os.path.abspath`) is modelled as the
identity.
-/

namespace GenLinuxTemplate

/-- The runtime configuration dictionary (`load_config` result). -/
structure Config where
  ssh_keyfile : String
  username : String
  storage : String
  deriving DecidableEq, Repr

/-- One catalog entry of `templates.json` (the `description` field is only
ever printed by `--list` and is not modelled). -/
structure ImageConfig where
  url : String
  filename : String
  vm_id : Nat
  vm_name : String
  deriving DecidableEq, Repr

/-- Observable events of a run: external commands, downloads, file removals,
and the log lines the claims talk about. -/
inductive Event where
  | cmd (args : List String)
  | transfer (url : String) (filename : String)
  | remove (path : String)
  | warnSshMissing (keyfile : String)
  | infoResizeFailed (vm_id : Nat)
  | errorImageMissing (path : String)
  | errorCreateFailed (vm_name : String)
  | errorUnknownImage (name : String)
  | reportNames (names : List String)
  | infoProcessed (name : String)
  | errorProcessFailed (name : String)
  | errorTemplatesMissing
  | errorTemplatesInvalid
  | errorStorageMissing (storage : String)
  deriving DecidableEq, Repr

/-- External side effects, as opposed to mere log lines. -/
def Event.isExternal : Event → Bool
  | .cmd _ => true
  | .transfer _ _ => true
  | .remove _ => true
  | _ => false

/-- Oracles for the outside world. -/
structure Env where
  qmFound : Bool
  cmdOk : List String → Bool
  transferOk : String → String → Bool
  removeOk : String → Bool

/-- The filesystem: which paths exist (`os.path.exists`). -/
abbrev FS := String → Bool

/-! ## The external commands issued by `create_template`, verbatim. -/

def createCmd (vm_id : Nat) (vm_name : String) : List String :=
  ["qm", "create", toString vm_id, "--name", vm_name, "--ostype", "l26"]

def netCmd (vm_id : Nat) : List String :=
  ["qm", "set", toString vm_id, "--net0", "virtio,bridge=vmbr0"]

def serialCmd (vm_id : Nat) : List String :=
  ["qm", "set", toString vm_id, "--serial0", "socket", "--vga", "serial0"]

def memCmd (vm_id : Nat) : List String :=
  ["qm", "set", toString vm_id, "--memory", "1024", "--cores", "4", "--cpu", "host"]

def importCmd (storage : String) (image_file : String) (vm_id : Nat) : List String :=
  ["qm", "set", toString vm_id,
    "--scsi0", storage ++ ":0,import-from=" ++ image_file ++ ",discard=on"]

def bootCmd (vm_id : Nat) : List String :=
  ["qm", "set", toString vm_id, "--boot", "order=scsi0", "--scsihw", "virtio-scsi-single"]

def agentCmd (vm_id : Nat) : List String :=
  ["qm", "set", toString vm_id, "--agent", "enabled=1,fstrim_cloned_disks=1"]

def cloudinitCmd (storage : String) (vm_id : Nat) : List String :=
  ["qm", "set", toString vm_id, "--ide2", storage ++ ":cloudinit"]

def ipconfigCmd (vm_id : Nat) : List String :=
  ["qm", "set", toString vm_id, "--ipconfig0", "ip6=auto,ip=dhcp"]

def sshCmd (vm_id : Nat) (keyfile : String) : List String :=
  ["qm", "set", toString vm_id, "--sshkeys", keyfile]

def ciuserCmd (vm_id : Nat) (username : String) : List String :=
  ["qm", "set", toString vm_id, "--ciuser", username]

def resizeCmd (vm_id : Nat) : List String :=
  ["qm", "disk", "resize", toString vm_id, "scsi0", "8G"]

def templateCmd (vm_id : Nat) : List String :=
  ["qm", "template", toString vm_id]

def qmVersionCmd : List String := ["qm", "version"]

def pvesmStatusCmd (storage : String) : List String :=
  ["pvesm", "status", "--storage", storage]

/-! ## The provisioning sequence of `create_template` -/

/-- One step of the body of `create_template`'s `try` block.
`cmd` is a plain `run_command` call (a failure raises and is caught by the
outer handler); `sshKey` is the `os.path.exists(ssh_keyfile)` guarded call;
`resize` is the resize call wrapped in its own `try/except` (non-fatal);
`removeFile` is the final `os.remove` (a failure raises, hence is fatal). -/
inductive Step where
  | cmd (c : List String)
  | sshKey (keyfile : String) (c : List String)
  | resize (vm_id : Nat) (c : List String)
  | removeFile (path : String)
  deriving DecidableEq, Repr

/-- The body of `create_template` as the ordered list of its steps,
in source order (lines 131–226 of `gen_linux_template.py`). -/
def templateSteps (cfg : Config) (vm_id : Nat) (vm_name : String)
    (image_file : String) : List Step :=
  [ Step.cmd (createCmd vm_id vm_name),
    Step.cmd (netCmd vm_id),
    Step.cmd (serialCmd vm_id),
    Step.cmd (memCmd vm_id),
    Step.cmd (importCmd cfg.storage image_file vm_id),
    Step.cmd (bootCmd vm_id),
    Step.cmd (agentCmd vm_id),
    Step.cmd (cloudinitCmd cfg.storage vm_id),
    Step.cmd (ipconfigCmd vm_id),
    Step.sshKey cfg.ssh_keyfile (sshCmd vm_id cfg.ssh_keyfile),
    Step.cmd (ciuserCmd vm_id cfg.username),
    Step.resize vm_id (resizeCmd vm_id),
    Step.cmd (templateCmd vm_id),
    Step.removeFile image_file ]

/-- Run the steps in order.  A failing `cmd` (or guarded ssh call, or
`os.remove`) raises: the run stops right after the failing step with result
`false`.  A failing `resize` is caught in place and logged; the run goes on.
A missing ssh keyfile only logs a warning.  `os.remove` deletes the path on
success. -/
def runSteps (env : Env) : FS → List Step → Bool × List Event × FS
  | fs, [] => (true, [], fs)
  | fs, Step.cmd c :: rest =>
      if env.cmdOk c then
        let r := runSteps env fs rest
        (r.1, Event.cmd c :: r.2.1, r.2.2)
      else
        (false, [Event.cmd c], fs)
  | fs, Step.sshKey kf c :: rest =>
      if fs kf then
        if env.cmdOk c then
          let r := runSteps env fs rest
          (r.1, Event.cmd c :: r.2.1, r.2.2)
        else
          (false, [Event.cmd c], fs)
      else
        let r := runSteps env fs rest
        (r.1, Event.warnSshMissing kf :: r.2.1, r.2.2)
  | fs, Step.resize vm_id c :: rest =>
      if env.cmdOk c then
        let r := runSteps env fs rest
        (r.1, Event.cmd c :: r.2.1, r.2.2)
      else
        let r := runSteps env fs rest
        (r.1, Event.cmd c :: Event.infoResizeFailed vm_id :: r.2.1, r.2.2)
  | fs, Step.removeFile p :: rest =>
      if env.removeOk p then
        let r := runSteps env (fun q => if q = p then false else fs q) rest
        (r.1, Event.remove p :: r.2.1, r.2.2)
      else
        (false, [Event.remove p], fs)

/-- The function `create_template(vm_id, vm_name, image_file)`: the missing-image guard,
then the step sequence inside `try`; any uncaught exception lands in the
`except` block which logs and returns `False`. -/
def create_template (cfg : Config) (env : Env) (fs : FS) (vm_id : Nat)
    (vm_name : String) (image_file : String) : Bool × List Event × FS :=
  if fs image_file then
    let r := runSteps env fs (templateSteps cfg vm_id vm_name image_file)
    if r.1 then r
    else (false, r.2.1 ++ [Event.errorCreateFailed vm_name], r.2.2)
  else
    (false, [Event.errorImageMissing image_file], fs)

/-! ## Fetcher, catalog store, orchestrator -/

/-- The function `download_file(url, filename)`: skip when the file exists, otherwise
attempt the transfer; any exception is caught and yields `False`. -/
def download_file (env : Env) (fs : FS) (url : String) (filename : String) :
    Bool × List Event × FS :=
  if fs filename then
    (true, [], fs)
  else if env.transferOk url filename then
    (true, [Event.transfer url filename], fun q => if q = filename then true else fs q)
  else
    (false, [Event.transfer url filename], fs)

/-- The state of `templates.json` as seen by `get_available_images`:
absent, present but not valid JSON, or a parsed JSON object (an association
list of entry name to entry; keys are unique since it is a parsed dict). -/
inductive CatalogFile where
  | missing
  | malformed
  | doc (entries : List (String × ImageConfig))

/-- The function `get_available_images()`: returns the parsed dict, or an empty dict on
`FileNotFoundError` / `JSONDecodeError` (each logged). -/
def get_available_images : CatalogFile → List (String × ImageConfig) × List Event
  | CatalogFile.doc entries => (entries, [])
  | CatalogFile.missing => ([], [Event.errorTemplatesMissing])
  | CatalogFile.malformed => ([], [Event.errorTemplatesInvalid])

/-- The function `process_image(image_name)`: look the name up; unknown names fail after
logging the set of known names; otherwise download then build. -/
def process_image (cfg : Config) (env : Env) (fs : FS) (tf : CatalogFile)
    (image_name : String) : Bool × List Event × FS :=
  let g := get_available_images tf
  match g.1.lookup image_name with
  | none =>
      (false,
        g.2 ++ [Event.errorUnknownImage image_name,
                Event.reportNames (g.1.map Prod.fst)],
        fs)
  | some ic =>
      let d := download_file env fs ic.url ic.filename
      if d.1 then
        let c := create_template cfg env d.2.2 ic.vm_id ic.vm_name ic.filename
        (c.1, g.2 ++ d.2.1 ++ c.2.1, c.2.2)
      else
        (false, g.2 ++ d.2.1, d.2.2)

/-- The loop body of `process_all_images`: process each name in turn,
logging per-name success or failure, never stopping early.  Returns the
per-name outcomes in order. -/
def processNames (cfg : Config) (env : Env) (tf : CatalogFile) :
    FS → List String → List (String × Bool) × List Event × FS
  | fs, [] => ([], [], fs)
  | fs, n :: rest =>
      let r := process_image cfg env fs tf n
      let report := if r.1 then Event.infoProcessed n else Event.errorProcessFailed n
      let k := processNames cfg env tf r.2.2 rest
      ((n, r.1) :: k.1, r.2.1 ++ report :: k.2.1, k.2.2)

/-- The function `process_all_images()`: iterate over every key of the catalog.
(The Python function returns `None`; the outcome list records what it
logged per entry.) -/
def process_all_images (cfg : Config) (env : Env) (fs : FS) (tf : CatalogFile) :
    List (String × Bool) × List Event × FS :=
  let g := get_available_images tf
  processNames cfg env tf fs (g.1.map Prod.fst)

/-- The function `validate_environment()`: run `qm version` (with `check=False`, so only a
missing binary fails), a warning if the ssh keyfile is absent, then
`pvesm status --storage <storage>` whose failure is fatal. -/
def validate_environment (cfg : Config) (env : Env) (fs : FS) : Bool × List Event :=
  if env.qmFound then
    let warn : List Event :=
      if fs cfg.ssh_keyfile then [] else [Event.warnSshMissing cfg.ssh_keyfile]
    if env.cmdOk (pvesmStatusCmd cfg.storage) then
      (true, Event.cmd qmVersionCmd :: warn ++ [Event.cmd (pvesmStatusCmd cfg.storage)])
    else
      (false, Event.cmd qmVersionCmd :: warn ++
        [Event.cmd (pvesmStatusCmd cfg.storage),
         Event.errorStorageMissing cfg.storage])
  else
    (false, [])

/-- The parsed command line of `main`. -/
structure Args where
  all : Bool
  image : Option String
  list : Bool
  validate : Bool

/-- The function `main()`, returning the process exit status (0 on falling off the end,
1 on each `sys.exit(1)` site).  `--list` and `--validate` return before the
mandatory environment validation; `--all` takes precedence over `--image`;
with neither, the help text is printed and the exit status is 1. -/
def main (args : Args) (cfg : Config) (env : Env) (fs : FS) (tf : CatalogFile) :
    Nat × List Event × FS :=
  if args.list then
    if (get_available_images tf).1.isEmpty then
      (1, (get_available_images tf).2, fs)
    else
      (0, (get_available_images tf).2, fs)
  else if args.validate then
    if (validate_environment cfg env fs).1 then
      (0, (validate_environment cfg env fs).2, fs)
    else
      (1, (validate_environment cfg env fs).2, fs)
  else if (validate_environment cfg env fs).1 then
    if args.all then
      let r := process_all_images cfg env fs tf
      (0, (validate_environment cfg env fs).2 ++ r.2.1, r.2.2)
    else
      match args.image with
      | some name =>
          let r := process_image cfg env fs tf name
          (if r.1 then 0 else 1, (validate_environment cfg env fs).2 ++ r.2.1, r.2.2)
      | none => (1, (validate_environment cfg env fs).2, fs)
  else
    (1, (validate_environment cfg env fs).2, fs)

/-! ## Specification-side vocabulary for the claims -/

/-- The single external event a step issues when its action runs. -/
def stepEvent : Step → Event
  | Step.cmd c => Event.cmd c
  | Step.sshKey _ c => Event.cmd c
  | Step.resize _ c => Event.cmd c
  | Step.removeFile p => Event.remove p

/-- The external events of a step list when every step acts, in order. -/
def maxTrace (l : List Step) : List Event := l.map stepEvent

/-- The fixed 14-step order of external calls from §4.3 of the
specification, written out: create VM shell, network interface, serial
display, memory/CPU, disk import, boot order and SCSI controller, guest
agent, cloud-init drive, DHCP/IPv6 networking, SSH key, username, disk
resize, template conversion, local image deletion. -/
def fullTrace (cfg : Config) (vm_id : Nat) (vm_name : String)
    (image_file : String) : List Event :=
  [ Event.cmd (createCmd vm_id vm_name),
    Event.cmd (netCmd vm_id),
    Event.cmd (serialCmd vm_id),
    Event.cmd (memCmd vm_id),
    Event.cmd (importCmd cfg.storage image_file vm_id),
    Event.cmd (bootCmd vm_id),
    Event.cmd (agentCmd vm_id),
    Event.cmd (cloudinitCmd cfg.storage vm_id),
    Event.cmd (ipconfigCmd vm_id),
    Event.cmd (sshCmd vm_id cfg.ssh_keyfile),
    Event.cmd (ciuserCmd vm_id cfg.username),
    Event.cmd (resizeCmd vm_id),
    Event.cmd (templateCmd vm_id),
    Event.remove image_file ]

/-- Whether a step lets the sequence continue: a fatal command continues
exactly when it succeeds, the ssh-key step also continues when the keyfile
is absent, the resize step always continues, the deletion continues exactly
when `os.remove` succeeds. -/
def stepOk (env : Env) (fs : FS) : Step → Bool
  | Step.cmd c => env.cmdOk c
  | Step.sshKey kf c => if fs kf then env.cmdOk c else true
  | Step.resize _ _ => true
  | Step.removeFile p => env.removeOk p

/-- The events a non-aborting step emits. -/
def okTrace1 (env : Env) (fs : FS) : Step → List Event
  | Step.cmd c => [Event.cmd c]
  | Step.sshKey kf c =>
      if fs kf then [Event.cmd c] else [Event.warnSshMissing kf]
  | Step.resize vm_id c =>
      if env.cmdOk c then [Event.cmd c]
      else [Event.cmd c, Event.infoResizeFailed vm_id]
  | Step.removeFile p => [Event.remove p]

/-- The events of a non-aborting prefix of steps. -/
def okTraceList (env : Env) (fs : FS) : List Step → List Event
  | [] => []
  | s :: rest => okTrace1 env fs s ++ okTraceList env fs rest

/-- The event the head step emits when it fails fatally. -/
def failTraceHead : List Step → List Event
  | [] => []
  | s :: _ => [stepEvent s]

/-- Whether the head step of a step list lets the sequence continue. -/
def headOk (env : Env) (fs : FS) : List Step → Bool
  | [] => true
  | s :: _ => stepOk env fs s

/-! ## Concrete instances used by witnesses and counterexamples -/

/-- The default configuration of `load_config`. -/
def cfgDemo : Config :=
  { ssh_keyfile := "/root/id_rsa.pub", username := "admin", storage := "local-zfs" }

def fsAll : FS := fun _ => true

def fsNone : FS := fun _ => false

/-- Everything succeeds. -/
def envAllOk : Env :=
  { qmFound := true, cmdOk := fun _ => true,
    transferOk := fun _ _ => true, removeOk := fun _ => true }

/-- Everything succeeds except `os.remove`. -/
def envNoRemove : Env :=
  { qmFound := true, cmdOk := fun _ => true,
    transferOk := fun _ _ => true, removeOk := fun _ => false }

/-- Everything succeeds except the file transfer. -/
def envNoTransfer : Env :=
  { qmFound := true, cmdOk := fun _ => true,
    transferOk := fun _ _ => false, removeOk := fun _ => true }

/-- Every external command fails. -/
def envCmdFail : Env :=
  { qmFound := true, cmdOk := fun _ => false,
    transferOk := fun _ _ => true, removeOk := fun _ => true }

/-- Everything succeeds except the disk-resize command for VM 101. -/
def envNoResize : Env :=
  { qmFound := true, cmdOk := fun c => !(c == resizeCmd 101),
    transferOk := fun _ _ => true, removeOk := fun _ => true }

/-- Everything succeeds except the disk-resize command for VM 101 and
`os.remove`: a run that hits the benign resize failure and then fails the
final deletion. -/
def envNoResizeNoRemove : Env :=
  { qmFound := true, cmdOk := fun c => !(c == resizeCmd 101),
    transferOk := fun _ _ => true, removeOk := fun _ => false }

/-- A one-entry catalog. -/
def tfDemo : CatalogFile :=
  CatalogFile.doc
    [("alpine", { url := "u", filename := "f.img", vm_id := 101, vm_name := "alpine-vm" })]

/-- The command line `--all`. -/
def argsAllDemo : Args :=
  { all := true, image := none, list := false, validate := false }

/-! ## Helper lemmas -/

/-- A lookup misses every key that is not among the mapped-out keys. -/
theorem lookup_eq_none_of_not_mem (l : List (String × ImageConfig)) (k : String)
    (h : k ∉ l.map Prod.fst) : l.lookup k = none := by
  induction l with
  | nil => rfl
  | cons a rest ih =>
      obtain ⟨x, y⟩ := a
      simp only [List.map_cons, List.mem_cons, not_or] at h
      have hx : (k == x) = false := beq_eq_false_iff_ne.mpr h.1
      simp [List.lookup, hx, ih h.2]

/-- The loop `processNames` visits exactly the given names, in order. -/
theorem processNames_map_fst (cfg : Config) (env : Env) (tf : CatalogFile) :
    ∀ (names : List String) (fs : FS),
      (processNames cfg env tf fs names).1.map Prod.fst = names := by
  intro names
  induction names with
  | nil => intro fs; simp [processNames]
  | cons n rest ih => intro fs; simp [processNames, ih]

/-! ## The claims -/

/-- C7: `download_file` is idempotent: if the destination file already
exists, it performs no transfer, returns `true` and leaves the filesystem
unchanged; hence a second call in succession again performs no transfer and
also returns `true`. -/
theorem download_file_idempotent (env : Env) (fs : FS) (url filename : String)
    (h : fs filename = true) :
    download_file env fs url filename = (true, [], fs) ∧
    download_file env (download_file env fs url filename).2.2 url filename
      = (true, [], fs) := by
  constructor <;> simp [download_file, h]

theorem download_file_idempotent_witness :
    download_file envAllOk fsAll "u" "f.img" = (true, [], fsAll) ∧
    download_file envAllOk (download_file envAllOk fsAll "u" "f.img").2.2 "u" "f.img"
      = (true, [], fsAll) :=
  download_file_idempotent envAllOk fsAll "u" "f.img" rfl

/-- C9: `get_available_images` returns the empty mapping on a missing or
malformed catalog document (the handlers catch the exceptions, so in the
model the function is total and never fails), and on a well-formed document
a mapping whose keys are exactly the document's top-level keys. -/
theorem get_available_images_degrades (entries : List (String × ImageConfig)) :
    (get_available_images CatalogFile.missing).1 = [] ∧
    (get_available_images CatalogFile.malformed).1 = [] ∧
    (get_available_images (CatalogFile.doc entries)).1.map Prod.fst
      = entries.map Prod.fst := by
  simp [get_available_images]

/-- C10: when the image file does not exist, `create_template` returns
`false` having issued no external command at all (only the error log line),
and leaves the filesystem unchanged. -/
theorem create_template_missing_image (cfg : Config) (env : Env) (fs : FS)
    (vm_id : Nat) (vm_name : String) (image_file : String)
    (h : fs image_file = false) :
    create_template cfg env fs vm_id vm_name image_file
      = (false, [Event.errorImageMissing image_file], fs) ∧
    (create_template cfg env fs vm_id vm_name image_file).2.1.filter Event.isExternal
      = [] := by
  simp [create_template, h, Event.isExternal]

theorem create_template_missing_image_witness :
    create_template cfgDemo envAllOk fsNone 101 "alpine-vm" "f.img"
      = (false, [Event.errorImageMissing "f.img"], fsNone) ∧
    (create_template cfgDemo envAllOk fsNone 101 "alpine-vm" "f.img").2.1.filter
      Event.isExternal = [] :=
  create_template_missing_image cfgDemo envAllOk fsNone 101 "alpine-vm" "f.img" rfl

/-- C8: `process_image` on a name outside the catalog returns `false`,
issues no external action at all (no transfer, no hypervisor command, no
removal), surfaces the full set of known catalog names, and leaves the
filesystem unchanged. -/
theorem process_image_unknown (cfg : Config) (env : Env) (fs : FS)
    (tf : CatalogFile) (image_name : String)
    (h : image_name ∉ (get_available_images tf).1.map Prod.fst) :
    (process_image cfg env fs tf image_name).1 = false ∧
    (process_image cfg env fs tf image_name).2.1.filter Event.isExternal = [] ∧
    Event.reportNames ((get_available_images tf).1.map Prod.fst)
      ∈ (process_image cfg env fs tf image_name).2.1 ∧
    (process_image cfg env fs tf image_name).2.2 = fs := by
  cases tf with
  | doc entries =>
      have hl := lookup_eq_none_of_not_mem entries image_name
        (by simpa [get_available_images] using h)
      simp [process_image, get_available_images, hl, Event.isExternal]
  | missing =>
      simp [process_image, get_available_images, Event.isExternal, List.lookup]
  | malformed =>
      simp [process_image, get_available_images, Event.isExternal, List.lookup]

theorem process_image_unknown_witness :
    (process_image cfgDemo envAllOk fsAll tfDemo "nope").1 = false ∧
    (process_image cfgDemo envAllOk fsAll tfDemo "nope").2.1.filter Event.isExternal
      = [] ∧
    Event.reportNames ((get_available_images tfDemo).1.map Prod.fst)
      ∈ (process_image cfgDemo envAllOk fsAll tfDemo "nope").2.1 ∧
    (process_image cfgDemo envAllOk fsAll tfDemo "nope").2.2 = fsAll :=
  process_image_unknown cfgDemo envAllOk fsAll tfDemo "nope" (by decide)

/-- C5: `process_all_images` attempts every catalog entry in order (no early
abort: the reported outcomes cover exactly the N catalog keys), and the
reported failures and successes partition the N entries: with M entries
failing, exactly M failures and N − M successes are reported. -/
theorem process_all_images_attempts_all (cfg : Config) (env : Env) (fs : FS)
    (tf : CatalogFile) :
    (process_all_images cfg env fs tf).1.map Prod.fst
      = (get_available_images tf).1.map Prod.fst ∧
    (process_all_images cfg env fs tf).1.length
      = (get_available_images tf).1.length ∧
    (process_all_images cfg env fs tf).1.countP (fun p => p.2)
        + (process_all_images cfg env fs tf).1.countP (fun p => !p.2)
      = (get_available_images tf).1.length := by
  have h := processNames_map_fst cfg env tf
    ((get_available_images tf).1.map Prod.fst) fs
  have hlen : (process_all_images cfg env fs tf).1.length
      = (get_available_images tf).1.length := by
    have := congrArg List.length h
    simpa [process_all_images] using this
  refine ⟨by simpa [process_all_images] using h, hlen, ?_⟩
  rw [← hlen]
  have hsplit := List.length_eq_countP_add_countP (fun p : String × Bool => p.2)
    (process_all_images cfg env fs tf).1
  have hneg : (fun a : String × Bool => decide ¬a.2 = true)
      = (fun a : String × Bool => !a.2) := by
    funext a; cases h2 : a.2 <;> simp [h2]
  rw [hneg] at hsplit
  omega

/-- The external events of any run of `runSteps` form a subsequence of the
step list's maximal trace: no step's action is ever issued out of order. -/
theorem runSteps_filter_sublist (env : Env) (l : List Step) :
    ∀ fs : FS,
      List.Sublist ((runSteps env fs l).2.1.filter Event.isExternal) (maxTrace l) := by
  induction l with
  | nil => intro fs; simp [runSteps, maxTrace]
  | cons s rest ih =>
      intro fs
      cases s with
      | cmd c =>
          cases hc : env.cmdOk c with
          | true =>
              simp only [runSteps, hc, if_true, maxTrace, List.map_cons, stepEvent,
                List.filter_cons, Event.isExternal]
              exact List.Sublist.cons₂ _ (ih fs)
          | false =>
              simp only [runSteps, hc, Bool.false_eq_true, if_false, maxTrace,
                List.map_cons, stepEvent, List.filter_cons, Event.isExternal,
                List.filter_nil]
              exact List.Sublist.cons₂ _ (List.nil_sublist _)
      | sshKey kf c =>
          cases hk : fs kf with
          | true =>
              cases hc : env.cmdOk c with
              | true =>
                  simp only [runSteps, hk, hc, if_true, maxTrace, List.map_cons,
                    stepEvent, List.filter_cons, Event.isExternal]
                  exact List.Sublist.cons₂ _ (ih fs)
              | false =>
                  simp only [runSteps, hk, hc, Bool.false_eq_true, if_true, if_false,
                    maxTrace, List.map_cons, stepEvent, List.filter_cons,
                    Event.isExternal, List.filter_nil]
                  exact List.Sublist.cons₂ _ (List.nil_sublist _)
          | false =>
              simp only [runSteps, hk, Bool.false_eq_true, if_false, maxTrace,
                List.map_cons, stepEvent, List.filter_cons, Event.isExternal]
              exact List.Sublist.cons _ (ih fs)
      | resize vm_id c =>
          cases hc : env.cmdOk c with
          | true =>
              simp only [runSteps, hc, if_true, maxTrace, List.map_cons, stepEvent,
                List.filter_cons, Event.isExternal]
              exact List.Sublist.cons₂ _ (ih fs)
          | false =>
              simp only [runSteps, hc, Bool.false_eq_true, if_false, maxTrace,
                List.map_cons, stepEvent, List.filter_cons, Event.isExternal]
              exact List.Sublist.cons₂ _ (ih fs)
      | removeFile p =>
          cases hr : env.removeOk p with
          | true =>
              simp only [runSteps, hr, if_true, maxTrace, List.map_cons, stepEvent,
                List.filter_cons, Event.isExternal]
              exact List.Sublist.cons₂ _ (ih _)
          | false =>
              simp only [runSteps, hr, Bool.false_eq_true, if_false, maxTrace,
                List.map_cons, stepEvent, List.filter_cons, Event.isExternal,
                List.filter_nil]
              exact List.Sublist.cons₂ _ (List.nil_sublist _)

/-- C1: with the image file present, the external calls `create_template`
issues always form a subsequence of the fixed 14-step order of §4.3 — no
step is ever issued before a step that precedes it in that order — and when
every command succeeds, the deletion succeeds and the ssh keyfile exists,
the run issues exactly the 14 steps in that order. -/
theorem create_template_fixed_order (cfg : Config) (env : Env) (fs : FS)
    (vm_id : Nat) (vm_name : String) (image_file : String)
    (himg : fs image_file = true) :
    List.Sublist ((create_template cfg env fs vm_id vm_name image_file).2.1.filter
        Event.isExternal) (fullTrace cfg vm_id vm_name image_file) ∧
    ((∀ c, env.cmdOk c = true) → env.removeOk image_file = true →
      fs cfg.ssh_keyfile = true →
      (create_template cfg env fs vm_id vm_name image_file).2.1
        = fullTrace cfg vm_id vm_name image_file) := by
  constructor
  · have h := runSteps_filter_sublist env (templateSteps cfg vm_id vm_name image_file) fs
    have hmax : maxTrace (templateSteps cfg vm_id vm_name image_file)
        = fullTrace cfg vm_id vm_name image_file := rfl
    rw [hmax] at h
    by_cases hr : (runSteps env fs (templateSteps cfg vm_id vm_name image_file)).1 = true
    · simpa [create_template, himg, hr] using h
    · simpa [create_template, himg, hr, List.filter_append, Event.isExternal] using h
  · intro hall hrem hssh
    simp [create_template, templateSteps, runSteps, fullTrace, himg, hall, hrem, hssh]

theorem create_template_fixed_order_witness :
    List.Sublist ((create_template cfgDemo envAllOk fsAll 101 "alpine-vm" "f.img").2.1.filter
        Event.isExternal) (fullTrace cfgDemo 101 "alpine-vm" "f.img") ∧
    ((∀ c, envAllOk.cmdOk c = true) → envAllOk.removeOk "f.img" = true →
      fsAll cfgDemo.ssh_keyfile = true →
      (create_template cfgDemo envAllOk fsAll 101 "alpine-vm" "f.img").2.1
        = fullTrace cfgDemo 101 "alpine-vm" "f.img") :=
  create_template_fixed_order cfgDemo envAllOk fsAll 101 "alpine-vm" "f.img" rfl

/-- C3: in any run that reaches the disk-resize command and in which that
command fails (steps 1–11 all let the sequence continue), the failure is
caught and logged, the sequence is not aborted, and the template-conversion
command is still issued; the final result is decided solely by the
remaining steps (template conversion and file deletion). -/
theorem create_template_resize_nonfatal (cfg : Config) (env : Env) (fs : FS)
    (vm_id : Nat) (vm_name : String) (image_file : String)
    (himg : fs image_file = true)
    (hok : ((templateSteps cfg vm_id vm_name image_file).take 11).all
      (stepOk env fs) = true)
    (hresize : env.cmdOk (resizeCmd vm_id) = false) :
    Event.infoResizeFailed vm_id
      ∈ (create_template cfg env fs vm_id vm_name image_file).2.1 ∧
    Event.cmd (templateCmd vm_id)
      ∈ (create_template cfg env fs vm_id vm_name image_file).2.1 ∧
    (create_template cfg env fs vm_id vm_name image_file).1
      = (env.cmdOk (templateCmd vm_id) && env.removeOk image_file) := by
  simp only [templateSteps, List.take, List.all_cons, List.all_nil, stepOk,
    Bool.and_eq_true, Bool.and_true] at hok
  by_cases hk : fs cfg.ssh_keyfile = true <;>
    by_cases ht : env.cmdOk (templateCmd vm_id) = true <;>
      by_cases hrm : env.removeOk image_file = true <;>
        simp_all [create_template, templateSteps, runSteps, himg, hresize]

theorem create_template_resize_nonfatal_witness :
    Event.infoResizeFailed 101
      ∈ (create_template cfgDemo envNoResize fsAll 101 "alpine-vm" "f.img").2.1 ∧
    Event.cmd (templateCmd 101)
      ∈ (create_template cfgDemo envNoResize fsAll 101 "alpine-vm" "f.img").2.1 ∧
    (create_template cfgDemo envNoResize fsAll 101 "alpine-vm" "f.img").1
      = (envNoResize.cmdOk (templateCmd 101) && envNoResize.removeOk "f.img") :=
  create_template_resize_nonfatal cfgDemo envNoResize fsAll 101 "alpine-vm" "f.img"
    rfl (by decide) (by decide)

/-- C4 counterexample: with every hypervisor command succeeding but the
final `os.remove` of the local image failing, the run reaches the template
conversion and the deletion attempt, yet `create_template` returns `false`
— the deletion failure is fatal to the reported result, contradicting the
claim that the build still reports success. -/
theorem create_template_remove_fail_cex :
    (create_template cfgDemo envNoRemove fsAll 101 "alpine-vm" "f.img").1 = false ∧
    Event.cmd (templateCmd 101)
      ∈ (create_template cfgDemo envNoRemove fsAll 101 "alpine-vm" "f.img").2.1 ∧
    Event.remove "f.img"
      ∈ (create_template cfgDemo envNoRemove fsAll 101 "alpine-vm" "f.img").2.1 := by
  decide

/-- C4 amended: in every run that reaches the final deletion of the local
image file — steps 1–13 all let the sequence continue, whether or not the
benign disk-resize failure occurred along the way — a deletion failure is
fatal to the reported result: the exception propagates to the outer handler,
so `create_template` returns `false` and logs the failure, even though the
template conversion has already been issued. -/
theorem create_template_remove_fail_fatal (cfg : Config) (env : Env) (fs : FS)
    (vm_id : Nat) (vm_name : String) (image_file : String)
    (himg : fs image_file = true)
    (hok : ((templateSteps cfg vm_id vm_name image_file).take 13).all
      (stepOk env fs) = true)
    (hrem : env.removeOk image_file = false) :
    (create_template cfg env fs vm_id vm_name image_file).1 = false ∧
    Event.cmd (templateCmd vm_id)
      ∈ (create_template cfg env fs vm_id vm_name image_file).2.1 ∧
    Event.remove image_file
      ∈ (create_template cfg env fs vm_id vm_name image_file).2.1 ∧
    Event.errorCreateFailed vm_name
      ∈ (create_template cfg env fs vm_id vm_name image_file).2.1 := by
  simp only [templateSteps, List.take_succ_cons, List.take_zero, List.all_cons,
    List.all_nil, stepOk, Bool.and_eq_true, Bool.and_true] at hok
  by_cases hk : fs cfg.ssh_keyfile = true <;>
    by_cases hz : env.cmdOk (resizeCmd vm_id) = true <;>
      simp_all [create_template, templateSteps, runSteps, himg, hrem]

theorem create_template_remove_fail_fatal_witness :
    (create_template cfgDemo envNoResizeNoRemove fsAll 101 "alpine-vm" "f.img").1
      = false ∧
    Event.cmd (templateCmd 101)
      ∈ (create_template cfgDemo envNoResizeNoRemove fsAll 101 "alpine-vm" "f.img").2.1 ∧
    Event.remove "f.img"
      ∈ (create_template cfgDemo envNoResizeNoRemove fsAll 101 "alpine-vm" "f.img").2.1 ∧
    Event.errorCreateFailed "alpine-vm"
      ∈ (create_template cfgDemo envNoResizeNoRemove fsAll 101 "alpine-vm" "f.img").2.1 :=
  create_template_remove_fail_fatal cfgDemo envNoResizeNoRemove fsAll 101 "alpine-vm"
    "f.img" rfl (by decide) rfl

/-- C2: when step `i` of the sequence — any step other than the ssh-key
injection (index 9) and the disk resize (index 11) — is the first to fail,
`create_template` returns `false` and its trace is exactly the events of
the non-aborting prefix, then the single failing action, then the error
log line: no later step's external command is issued and no rollback
command of any kind is issued for the already-applied configuration. -/
theorem create_template_fatal_abort (cfg : Config) (env : Env) (fs : FS)
    (vm_id : Nat) (vm_name : String) (image_file : String) (i : Nat)
    (hi : i < 14)
    (himg : fs image_file = true)
    (hnotssh : i ≠ 9) (hnotresize : i ≠ 11)
    (hok : ((templateSteps cfg vm_id vm_name image_file).take i).all
      (stepOk env fs) = true)
    (hfail : headOk env fs ((templateSteps cfg vm_id vm_name image_file).drop i)
      = false) :
    (create_template cfg env fs vm_id vm_name image_file).1 = false ∧
    (create_template cfg env fs vm_id vm_name image_file).2.1
      = okTraceList env fs ((templateSteps cfg vm_id vm_name image_file).take i)
        ++ failTraceHead ((templateSteps cfg vm_id vm_name image_file).drop i)
        ++ [Event.errorCreateFailed vm_name] := by
  interval_cases i <;>
    first
      | exact absurd rfl hnotssh
      | exact absurd rfl hnotresize
      | (simp only [templateSteps, List.take_succ_cons, List.take_zero,
          List.all_cons, List.all_nil, stepOk, Bool.and_eq_true,
          Bool.and_true] at hok
         simp only [templateSteps, List.drop_succ_cons, List.drop_zero,
          headOk, stepOk] at hfail
         by_cases hk : fs cfg.ssh_keyfile = true <;>
           by_cases hz : env.cmdOk (resizeCmd vm_id) = true <;>
             simp_all [create_template, templateSteps, runSteps, okTraceList,
               okTrace1, failTraceHead, stepEvent, himg])

theorem create_template_fatal_abort_witness :
    (create_template cfgDemo envCmdFail fsAll 101 "alpine-vm" "f.img").1 = false ∧
    (create_template cfgDemo envCmdFail fsAll 101 "alpine-vm" "f.img").2.1
      = okTraceList envCmdFail fsAll
          ((templateSteps cfgDemo 101 "alpine-vm" "f.img").take 0)
        ++ failTraceHead ((templateSteps cfgDemo 101 "alpine-vm" "f.img").drop 0)
        ++ [Event.errorCreateFailed "alpine-vm"] :=
  create_template_fatal_abort cfgDemo envCmdFail fsAll 101 "alpine-vm" "f.img" 0
    (by decide) rfl (by decide) (by decide) (by decide) (by decide)

/-- C6 counterexample: a `--all` run in which the only catalog entry fails
(its download fails) still exits with status 0 — an operation failed, yet
the exit status is zero, so the exit status does not distinguish clean
success from any failure. -/
theorem main_allmode_exit_cex :
    (main argsAllDemo cfgDemo envNoTransfer fsNone tfDemo).1 = 0 ∧
    Event.errorProcessFailed "alpine"
      ∈ (main argsAllDemo cfgDemo envNoTransfer fsNone tfDemo).2.1 := by
  decide

/-- C6 amended: the exit status is zero iff no requested operation failed,
except in process-all mode, where per-entry failures do not affect the
status (it is zero iff environment validation passed), and in an invocation
requesting no operation, which exits 1 after printing the help text.
Precisely: `--list` exits 0 iff the catalog is non-empty; `--validate`
exits 0 iff validation passes; `--all` exits 0 iff validation passes,
regardless of per-entry outcomes; `--image name` exits 0 iff validation
passes and the entry is processed successfully; no operation exits 1. -/
theorem main_exit_characterisation (args : Args) (cfg : Config) (env : Env)
    (fs : FS) (tf : CatalogFile) :
    (args.list = true →
      ((main args cfg env fs tf).1 = 0 ↔ (get_available_images tf).1 ≠ [])) ∧
    (args.list = false → args.validate = true →
      ((main args cfg env fs tf).1 = 0
        ↔ (validate_environment cfg env fs).1 = true)) ∧
    (args.list = false → args.validate = false → args.all = true →
      ((main args cfg env fs tf).1 = 0
        ↔ (validate_environment cfg env fs).1 = true)) ∧
    (∀ name, args.list = false → args.validate = false → args.all = false →
      args.image = some name →
      ((main args cfg env fs tf).1 = 0
        ↔ ((validate_environment cfg env fs).1 = true
            ∧ (process_image cfg env fs tf name).1 = true))) ∧
    (args.list = false → args.validate = false → args.all = false →
      args.image = none → (main args cfg env fs tf).1 = 1) := by
  refine ⟨?_, ?_, ?_, ?_, ?_⟩
  · intro hl
    cases he : (get_available_images tf).1 <;> simp [main, hl, he]
  · intro hl hv
    by_cases hval : (validate_environment cfg env fs).1 = true <;>
      simp [main, hl, hv, hval]
  · intro hl hv ha
    by_cases hval : (validate_environment cfg env fs).1 = true <;>
      simp [main, hl, hv, ha, hval]
  · intro name hl hv ha hname
    by_cases hval : (validate_environment cfg env fs).1 = true <;>
      by_cases hp : (process_image cfg env fs tf name).1 = true <;>
        simp [main, hl, hv, ha, hname, hval, hp]
  · intro hl hv ha hname
    by_cases hval : (validate_environment cfg env fs).1 = true <;>
      simp [main, hl, hv, ha, hname, hval]

theorem main_exit_characterisation_witness :
    (main argsAllDemo cfgDemo envNoTransfer fsNone tfDemo).1 = 0
      ↔ (validate_environment cfgDemo envNoTransfer fsNone).1 = true :=
  (main_exit_characterisation argsAllDemo cfgDemo envNoTransfer fsNone tfDemo).2.2.1
    rfl rfl rfl

end GenLinuxTemplate
